import Mathlib

/-
Verification of the surf CLI runtime core (cmd/surf): a shallow embedding of
the settings store, profile sanitizer, mount resolver, health probing and
status convergence code, with theorems settling the specification claims.

Strings are modelled through their character lists. Whitespace trimming
models strings.TrimSpace at the ASCII level (space, tab, carriage return,
newline), and lowercasing models strings.ToLower on the ASCII letters;
the properties proved here do not depend on the wider Unicode tables.
-/

namespace Surf

/-- Model of strings.TrimSpace and strings.Trim on character lists: drop
characters satisfying p from both ends of the list. -/
def dropEdge (p : Char → Bool) (l : List Char) : List Char :=
  ((l.dropWhile p).reverse.dropWhile p).reverse

/-- Characters removed by strings.TrimSpace (ASCII fragment). -/
def isSpaceChar (c : Char) : Bool :=
  c == ' ' || c == '\t' || c == '\r' || c == '\n'

/-- Model of strings.TrimSpace on character lists. -/
def trimChars (l : List Char) : List Char := dropEdge isSpaceChar l

/-- Model of strings.TrimSpace. -/
def trimStr (s : String) : String := String.mk (trimChars s.data)

/-- Model of strings.ToLower on one character (ASCII fragment). -/
def lowerChar (c : Char) : Char :=
  if 65 ≤ c.toNat ∧ c.toNat ≤ 90 then Char.ofNat (c.toNat + 32) else c

/-- Model of strings.ToLower. -/
def lowerString (s : String) : String := String.mk (s.data.map lowerChar)

/-- The character class of the sanitizer regexp [a-z0-9_-]. -/
def isAllowedChar (c : Char) : Bool :=
  (97 ≤ c.toNat && c.toNat ≤ 122) || (48 ≤ c.toNat && c.toNat ≤ 57)
    || c.toNat == 95 || c.toNat == 45

/-- Dash test used by strings.Trim(name, "-"). -/
def isDash (c : Char) : Bool := c == '-'

/-- Model of regexp.ReplaceAllString with pattern [^a-z0-9_-]+ and
replacement "-": every maximal run of disallowed characters becomes one
dash. The boolean records whether the previous character was part of a
disallowed run. -/
def collapseRunsAux : Bool → List Char → List Char
  | _, [] => []
  | inRun, c :: rest =>
    if isAllowedChar c then c :: collapseRunsAux false rest
    else if inRun then collapseRunsAux true rest
    else '-' :: collapseRunsAux true rest

/-- The constant defaultProfileName of cmd/surf/main.go. -/
def defaultProfileName : String := "default"

/-- sanitizeProfileName of cmd/surf/main.go, acting on character lists:
trim space, empty falls back to the default name, lowercase, collapse runs
of characters outside [a-z0-9_-] to one dash, trim dashes, empty again
falls back to the default name. -/
def sanitizeChars (l : List Char) : List Char :=
  if trimChars l = [] then defaultProfileName.data
  else
    if dropEdge isDash (collapseRunsAux false ((trimChars l).map lowerChar)) = []
    then defaultProfileName.data
    else dropEdge isDash (collapseRunsAux false ((trimChars l).map lowerChar))

/-- sanitizeProfileName of cmd/surf/main.go. -/
def sanitizeProfileName (raw : String) : String :=
  String.mk (sanitizeChars raw.data)

/-- Shape of every sanitizer output: non-empty, only characters of the
class [a-z0-9_-], and no dash left at either end (so a second dash trim
is the identity). -/
def goodName (l : List Char) : Prop :=
  l ≠ [] ∧ (l.all isAllowedChar = true) ∧
    List.dropWhile isDash l = l ∧ List.dropWhile isDash l.reverse = l.reverse

/-! Constants of cmd/surf (main.go and the settings file). -/

def defaultImage : String := "ghcr.io/aureuma/surf-browser:local"

def defaultContainer : String := "surf-playwright-mcp-headed"

def defaultNetwork : String := "si"

def defaultHostBind : String := "127.0.0.1"

def defaultMCPPort : Int := 8931

def defaultHostMCPPort : Int := 8932

def defaultNoVNCPort : Int := 6080

def defaultHostNoVNCPort : Int := 6080

def defaultMCPVersion : String := "0.0.64"

def defaultTunnelName : String := "surf-cloudflared"

def defaultCloudflaredImg : String := "cloudflare/cloudflared:latest"

def surfSettingsSchemaVersion : Int := 1

def defaultSurfConfigRoot : String := "~/.si/surf"

def defaultSurfConfigFile : String := "~/.si/surf/settings.toml"

def defaultSurfStateDirPath : String := "~/.surf"

/-! The settings document (surfSettings and its sections). Go ints become
Int, Go strings become String. -/

@[ext] structure surfSettingsPaths where
  Root : String
  SettingsFile : String
  StateDir : String
  deriving DecidableEq, Repr

@[ext] structure surfBrowserSettings where
  ImageName : String
  ContainerName : String
  Network : String
  ProfileName : String
  ProfileDir : String
  HostBind : String
  HostMCPPort : Int
  HostNoVNCPort : Int
  MCPPort : Int
  NoVNCPort : Int
  VNCPassword : String
  MCPVersion : String
  BrowserChannel : String
  AllowedHosts : String
  deriving DecidableEq, Repr

@[ext] structure surfTunnelSettings where
  ContainerName : String
  TargetURL : String
  Mode : String
  Image : String
  VaultKey : String
  deriving DecidableEq, Repr

@[ext] structure surfSettingsMetadata where
  UpdatedAt : String
  deriving DecidableEq, Repr

@[ext] structure surfSettings where
  SchemaVersion : Int
  Paths : surfSettingsPaths
  Browser : surfBrowserSettings
  Tunnel : surfTunnelSettings
  Metadata : surfSettingsMetadata
  deriving DecidableEq, Repr

/-- defaultSurfSettings of the settings code. -/
def defaultSurfSettings : surfSettings where
  SchemaVersion := surfSettingsSchemaVersion
  Paths :=
    { Root := defaultSurfConfigRoot
      SettingsFile := defaultSurfConfigFile
      StateDir := defaultSurfStateDirPath }
  Browser :=
    { ImageName := defaultImage
      ContainerName := defaultContainer
      Network := defaultNetwork
      ProfileName := defaultProfileName
      ProfileDir := ""
      HostBind := defaultHostBind
      HostMCPPort := defaultHostMCPPort
      HostNoVNCPort := defaultHostNoVNCPort
      MCPPort := defaultMCPPort
      NoVNCPort := defaultNoVNCPort
      VNCPassword := "surf"
      MCPVersion := defaultMCPVersion
      BrowserChannel := "chromium"
      AllowedHosts := "*" }
  Tunnel :=
    { ContainerName := defaultTunnelName
      TargetURL := ""
      Mode := "quick"
      Image := defaultCloudflaredImg
      VaultKey := "" }
  Metadata := { UpdatedAt := "" }

/-- One defaulting step of applySurfSettingsDefaults for a string field:
replace the field by the given default when blank after trimming. -/
def defaultedStr (v d : String) : String := if trimStr v = "" then d else v

/-- One defaulting step for a port field: replace by the default when not
positive. -/
def defaultedPos (v d : Int) : Int := if v ≤ 0 then d else v

/-- The schema_version defaulting step. -/
def defaultedSchema (v : Int) : Int :=
  if v ≤ 0 then surfSettingsSchemaVersion else v

/-- The tunnel.mode steps of applySurfSettingsDefaults: blank becomes
quick, and a value that is neither quick nor token after trimming and
lowercasing becomes quick. -/
def normalizeMode (m : String) : String :=
  if lowerString (trimStr (defaultedStr m "quick")) = "quick"
      ∨ lowerString (trimStr (defaultedStr m "quick")) = "token"
  then defaultedStr m "quick" else "quick"

/-- applySurfSettingsDefaults of the settings code, as a pure function on
the settings value. -/
def applySurfSettingsDefaults (s : surfSettings) : surfSettings where
  SchemaVersion := defaultedSchema s.SchemaVersion
  Paths :=
    { Root := defaultedStr s.Paths.Root defaultSurfConfigRoot
      SettingsFile := defaultedStr s.Paths.SettingsFile defaultSurfConfigFile
      StateDir := defaultedStr s.Paths.StateDir defaultSurfStateDirPath }
  Browser :=
    { ImageName := defaultedStr s.Browser.ImageName defaultImage
      ContainerName := defaultedStr s.Browser.ContainerName defaultContainer
      Network := defaultedStr s.Browser.Network defaultNetwork
      ProfileName := defaultedStr s.Browser.ProfileName defaultProfileName
      ProfileDir := s.Browser.ProfileDir
      HostBind := defaultedStr s.Browser.HostBind defaultHostBind
      HostMCPPort := defaultedPos s.Browser.HostMCPPort defaultHostMCPPort
      HostNoVNCPort := defaultedPos s.Browser.HostNoVNCPort defaultHostNoVNCPort
      MCPPort := defaultedPos s.Browser.MCPPort defaultMCPPort
      NoVNCPort := defaultedPos s.Browser.NoVNCPort defaultNoVNCPort
      VNCPassword := defaultedStr s.Browser.VNCPassword "surf"
      MCPVersion := defaultedStr s.Browser.MCPVersion defaultMCPVersion
      BrowserChannel := defaultedStr s.Browser.BrowserChannel "chromium"
      AllowedHosts := defaultedStr s.Browser.AllowedHosts "*" }
  Tunnel :=
    { ContainerName := defaultedStr s.Tunnel.ContainerName defaultTunnelName
      TargetURL := s.Tunnel.TargetURL
      Mode := normalizeMode s.Tunnel.Mode
      Image := defaultedStr s.Tunnel.Image defaultCloudflaredImg
      VaultKey := s.Tunnel.VaultKey }
  Metadata := s.Metadata

/-! The persisted TOML document. Every field carrying the omitempty tag is
an Option that marshalling leaves none for the zero value; schema_version
carries no omitempty tag, so marshalling always writes it. Unmarshalling
overlays the present fields onto a base settings value, which is how
toml.Unmarshal fills a pre-populated struct. -/

structure tomlPaths where
  root : Option String
  settingsFile : Option String
  stateDir : Option String
  deriving DecidableEq, Repr

structure tomlBrowser where
  imageName : Option String
  containerName : Option String
  network : Option String
  profileName : Option String
  profileDir : Option String
  hostBind : Option String
  hostMCPPort : Option Int
  hostNoVNCPort : Option Int
  mcpPort : Option Int
  novncPort : Option Int
  vncPassword : Option String
  mcpVersion : Option String
  browserChannel : Option String
  allowedHosts : Option String
  deriving DecidableEq, Repr

structure tomlTunnel where
  containerName : Option String
  targetURL : Option String
  mode : Option String
  image : Option String
  vaultKey : Option String
  deriving DecidableEq, Repr

structure tomlDoc where
  schemaVersion : Option Int
  paths : tomlPaths
  browser : tomlBrowser
  tunnel : tomlTunnel
  updatedAt : Option String
  deriving DecidableEq, Repr

/-- The omitempty rule for a string field. -/
def omitStr (v : String) : Option String := if v = "" then none else some v

/-- The omitempty rule for an int field. -/
def omitInt (v : Int) : Option Int := if v = 0 then none else some v

/-- toml.Marshal on a settings value under the struct tags of the code. -/
def marshalSettings (s : surfSettings) : tomlDoc where
  schemaVersion := some s.SchemaVersion
  paths :=
    { root := omitStr s.Paths.Root
      settingsFile := omitStr s.Paths.SettingsFile
      stateDir := omitStr s.Paths.StateDir }
  browser :=
    { imageName := omitStr s.Browser.ImageName
      containerName := omitStr s.Browser.ContainerName
      network := omitStr s.Browser.Network
      profileName := omitStr s.Browser.ProfileName
      profileDir := omitStr s.Browser.ProfileDir
      hostBind := omitStr s.Browser.HostBind
      hostMCPPort := omitInt s.Browser.HostMCPPort
      hostNoVNCPort := omitInt s.Browser.HostNoVNCPort
      mcpPort := omitInt s.Browser.MCPPort
      novncPort := omitInt s.Browser.NoVNCPort
      vncPassword := omitStr s.Browser.VNCPassword
      mcpVersion := omitStr s.Browser.MCPVersion
      browserChannel := omitStr s.Browser.BrowserChannel
      allowedHosts := omitStr s.Browser.AllowedHosts }
  tunnel :=
    { containerName := omitStr s.Tunnel.ContainerName
      targetURL := omitStr s.Tunnel.TargetURL
      mode := omitStr s.Tunnel.Mode
      image := omitStr s.Tunnel.Image
      vaultKey := omitStr s.Tunnel.VaultKey }
  updatedAt := omitStr s.Metadata.UpdatedAt

/-- toml.Unmarshal of a stored document into a pre-populated settings
value: a field present in the document overwrites the base field. -/
def unmarshalInto (base : surfSettings) (d : tomlDoc) : surfSettings where
  SchemaVersion := d.schemaVersion.getD base.SchemaVersion
  Paths :=
    { Root := d.paths.root.getD base.Paths.Root
      SettingsFile := d.paths.settingsFile.getD base.Paths.SettingsFile
      StateDir := d.paths.stateDir.getD base.Paths.StateDir }
  Browser :=
    { ImageName := d.browser.imageName.getD base.Browser.ImageName
      ContainerName := d.browser.containerName.getD base.Browser.ContainerName
      Network := d.browser.network.getD base.Browser.Network
      ProfileName := d.browser.profileName.getD base.Browser.ProfileName
      ProfileDir := d.browser.profileDir.getD base.Browser.ProfileDir
      HostBind := d.browser.hostBind.getD base.Browser.HostBind
      HostMCPPort := d.browser.hostMCPPort.getD base.Browser.HostMCPPort
      HostNoVNCPort := d.browser.hostNoVNCPort.getD base.Browser.HostNoVNCPort
      MCPPort := d.browser.mcpPort.getD base.Browser.MCPPort
      NoVNCPort := d.browser.novncPort.getD base.Browser.NoVNCPort
      VNCPassword := d.browser.vncPassword.getD base.Browser.VNCPassword
      MCPVersion := d.browser.mcpVersion.getD base.Browser.MCPVersion
      BrowserChannel := d.browser.browserChannel.getD base.Browser.BrowserChannel
      AllowedHosts := d.browser.allowedHosts.getD base.Browser.AllowedHosts }
  Tunnel :=
    { ContainerName := d.tunnel.containerName.getD base.Tunnel.ContainerName
      TargetURL := d.tunnel.targetURL.getD base.Tunnel.TargetURL
      Mode := d.tunnel.mode.getD base.Tunnel.Mode
      Image := d.tunnel.image.getD base.Tunnel.Image
      VaultKey := d.tunnel.vaultKey.getD base.Tunnel.VaultKey }
  Metadata := { UpdatedAt := d.updatedAt.getD base.Metadata.UpdatedAt }

/-- What saveSurfSettings does to the settings value before marshalling:
normalize, force paths.root and paths.settings_file to the constants, and
stamp metadata.updated_at with the present time. -/
def saveNormalize (now : String) (s : surfSettings) : surfSettings :=
  let s1 := applySurfSettingsDefaults s
  { s1 with
      Paths :=
        { s1.Paths with
            Root := defaultSurfConfigRoot
            SettingsFile := defaultSurfConfigFile }
      Metadata := { UpdatedAt := now } }

/-- saveSurfSettings of the settings code: the document written (atomically,
through a temp file and a rename) to the settings path. The wall-clock time
is a parameter. -/
def saveSurfSettings (now : String) (s : surfSettings) : tomlDoc :=
  marshalSettings (saveNormalize now s)

/-- The diagnostic a failing load carries. -/
inductive settingsLoadErr
  | readError
  | parseError
  deriving DecidableEq, Repr

/-- State of the settings file on disk, as loadSurfSettings distinguishes
it: absent, present but unreadable, present but not parseable TOML, or a
stored document. -/
inductive settingsFileState
  | absent
  | unreadable
  | unparseable
  | stored (doc : tomlDoc)
  deriving DecidableEq, Repr

/-- loadSurfSettings of the settings code: returns the settings value, the
diagnostic error if any, and the resulting file state. An absent file is
bootstrapped with normalized defaults; an unreadable or unparseable file
yields normalized defaults plus a diagnostic and never a failure that
stops the caller; a stored document is overlaid onto the defaults,
normalized, and written back. -/
def loadSurfSettings (now : String) :
    settingsFileState → surfSettings × Option settingsLoadErr × settingsFileState
  | .absent =>
    (applySurfSettingsDefaults defaultSurfSettings, none,
      .stored (saveSurfSettings now (applySurfSettingsDefaults defaultSurfSettings)))
  | .unreadable =>
    (applySurfSettingsDefaults defaultSurfSettings, some .readError, .unreadable)
  | .unparseable =>
    (applySurfSettingsDefaults defaultSurfSettings, some .parseError, .unparseable)
  | .stored doc =>
    (applySurfSettingsDefaults (unmarshalInto defaultSurfSettings doc), none,
      .stored (saveSurfSettings now
        (applySurfSettingsDefaults (unmarshalInto defaultSurfSettings doc))))

/-- loadSurfSettingsOrDefault of the settings code: on a load error, warn
and fall back to normalized defaults. -/
def loadSurfSettingsOrDefault (now : String) (fs : settingsFileState) : surfSettings :=
  match (loadSurfSettings now fs).2.1 with
  | some _ => applySurfSettingsDefaults defaultSurfSettings
  | none => (loadSurfSettings now fs).1

/-- Accumulated value of a digit list (most significant first). -/
def digitsVal (l : List Char) : Nat :=
  l.foldl (fun acc c => acc * 10 + (c.toNat - 48)) 0

/-- Model of strconv.Atoi: an optional sign followed by at least one
decimal digit. The 64-bit range check of Atoi is not modelled; the claims
settled here do not involve out-of-range literals. -/
def parseGoInt (s : String) : Option Int :=
  match s.data with
  | [] => none
  | c :: rest =>
    if c = '+' then
      if rest ≠ [] ∧ rest.all Char.isDigit then some (digitsVal rest) else none
    else if c = '-' then
      if rest ≠ [] ∧ rest.all Char.isDigit then some (-(digitsVal rest : Int)) else none
    else if (c :: rest).all Char.isDigit then some (digitsVal (c :: rest))
    else none

/-- setSurfConfigValue of the settings code, as a pure function: the pair
holds the settings value after the call (unchanged on error) and the error
if any. Persistence is not part of this function. -/
def setSurfConfigValue (s : surfSettings) (key value : String) :
    surfSettings × Option String :=
  let k := lowerString (trimStr key)
  let v := trimStr value
  if k = "paths.state_dir" then
    (applySurfSettingsDefaults { s with Paths := { s.Paths with StateDir := v } }, none)
  else if k = "browser.image_name" then
    (applySurfSettingsDefaults { s with Browser := { s.Browser with ImageName := v } }, none)
  else if k = "browser.container_name" then
    (applySurfSettingsDefaults { s with Browser := { s.Browser with ContainerName := v } }, none)
  else if k = "browser.network" then
    (applySurfSettingsDefaults { s with Browser := { s.Browser with Network := v } }, none)
  else if k = "browser.profile_name" then
    (applySurfSettingsDefaults
      { s with Browser := { s.Browser with ProfileName := sanitizeProfileName v } }, none)
  else if k = "browser.profile_dir" then
    (applySurfSettingsDefaults { s with Browser := { s.Browser with ProfileDir := v } }, none)
  else if k = "browser.host_bind" then
    (applySurfSettingsDefaults { s with Browser := { s.Browser with HostBind := v } }, none)
  else if k = "browser.host_mcp_port" then
    match parseGoInt v with
    | none => (s, some "invalid int for browser.host_mcp_port")
    | some n =>
      (applySurfSettingsDefaults { s with Browser := { s.Browser with HostMCPPort := n } }, none)
  else if k = "browser.host_novnc_port" then
    match parseGoInt v with
    | none => (s, some "invalid int for browser.host_novnc_port")
    | some n =>
      (applySurfSettingsDefaults { s with Browser := { s.Browser with HostNoVNCPort := n } }, none)
  else if k = "browser.mcp_port" then
    match parseGoInt v with
    | none => (s, some "invalid int for browser.mcp_port")
    | some n =>
      (applySurfSettingsDefaults { s with Browser := { s.Browser with MCPPort := n } }, none)
  else if k = "browser.novnc_port" then
    match parseGoInt v with
    | none => (s, some "invalid int for browser.novnc_port")
    | some n =>
      (applySurfSettingsDefaults { s with Browser := { s.Browser with NoVNCPort := n } }, none)
  else if k = "browser.vnc_password" then
    (applySurfSettingsDefaults { s with Browser := { s.Browser with VNCPassword := v } }, none)
  else if k = "browser.mcp_version" then
    (applySurfSettingsDefaults { s with Browser := { s.Browser with MCPVersion := v } }, none)
  else if k = "browser.browser_channel" then
    (applySurfSettingsDefaults { s with Browser := { s.Browser with BrowserChannel := v } }, none)
  else if k = "browser.allowed_hosts" then
    (applySurfSettingsDefaults { s with Browser := { s.Browser with AllowedHosts := v } }, none)
  else if k = "tunnel.container_name" then
    (applySurfSettingsDefaults { s with Tunnel := { s.Tunnel with ContainerName := v } }, none)
  else if k = "tunnel.target_url" then
    (applySurfSettingsDefaults { s with Tunnel := { s.Tunnel with TargetURL := v } }, none)
  else if k = "tunnel.mode" then
    if lowerString v = "quick" ∨ lowerString v = "token" then
      (applySurfSettingsDefaults { s with Tunnel := { s.Tunnel with Mode := lowerString v } }, none)
    else (s, some "invalid mode (expected quick or token)")
  else if k = "tunnel.image" then
    (applySurfSettingsDefaults { s with Tunnel := { s.Tunnel with Image := v } }, none)
  else if k = "tunnel.vault_key" then
    (applySurfSettingsDefaults { s with Tunnel := { s.Tunnel with VaultKey := v } }, none)
  else (s, some ("unsupported key: " ++ key))

/-- The restricted key namespace setSurfConfigValue accepts. -/
def surfConfigKeys : List String :=
  ["paths.state_dir", "browser.image_name", "browser.container_name",
   "browser.network", "browser.profile_name", "browser.profile_dir",
   "browser.host_bind", "browser.host_mcp_port", "browser.host_novnc_port",
   "browser.mcp_port", "browser.novnc_port", "browser.vnc_password",
   "browser.mcp_version", "browser.browser_channel", "browser.allowed_hosts",
   "tunnel.container_name", "tunnel.target_url", "tunnel.mode",
   "tunnel.image", "tunnel.vault_key"]

/-- The keys coerced to integers. -/
def surfConfigPortKeys : List String :=
  ["browser.host_mcp_port", "browser.host_novnc_port",
   "browser.mcp_port", "browser.novnc_port"]

/-- Hard-error condition of setSurfConfigValue, written from the words of
the specification: an unknown key, a port key whose value fails integer
coercion, or tunnel.mode with a value accepted as neither quick nor
token. -/
def setValueErrSpec (key value : String) : Prop :=
  lowerString (trimStr key) ∉ surfConfigKeys
    ∨ (lowerString (trimStr key) ∈ surfConfigPortKeys
        ∧ parseGoInt (trimStr value) = none)
    ∨ (lowerString (trimStr key) = "tunnel.mode"
        ∧ lowerString (trimStr value) ≠ "quick"
        ∧ lowerString (trimStr value) ≠ "token")

/-! Probe URLs, health probing, status evaluation and the convergence
loop of cmd/surf/main.go. -/

/-- browserConfig of cmd/surf/main.go. -/
structure browserConfig where
  ImageName : String
  ContainerName : String
  Network : String
  ProfileName : String
  ProfileDir : String
  HostBind : String
  HostMCPPort : Int
  HostNoVNCPort : Int
  MCPPort : Int
  NoVNCPort : Int
  VNCPassword : String
  MCPVersion : String
  BrowserChannel : String
  AllowedHosts : String
  deriving DecidableEq, Repr

/-- hostConnect of cmd/surf/main.go: the address probes connect to for a
given configured bind address. -/
def hostConnect (bind : String) : String :=
  if trimStr bind = "" ∨ trimStr bind = "0.0.0.0" then "127.0.0.1"
  else trimStr bind

/-- mcpURL of cmd/surf/main.go. -/
def mcpURL (cfg : browserConfig) : String :=
  "http://" ++ hostConnect cfg.HostBind ++ ":" ++ toString cfg.HostMCPPort ++ "/mcp"

/-- novncURL of cmd/surf/main.go. -/
def novncURL (cfg : browserConfig) : String :=
  "http://" ++ hostConnect cfg.HostBind ++ ":" ++ toString cfg.HostNoVNCPort
    ++ "/vnc.html?autoconnect=1&resize=scale"

/-- statusPayload of cmd/surf/main.go. -/
structure statusPayload where
  OK : Bool
  ContainerName : String
  ContainerRunning : Bool
  ContainerStatusLine : String
  MCPURL : String
  NoVNCURL : String
  MCPHostCode : Int
  MCPContainerCode : Int
  NoVNCHostCode : Int
  NoVNCContainerCode : Int
  MCPReady : Bool
  NoVNCReady : Bool
  Error : String
  deriving DecidableEq, Repr

/-- The zero value of statusPayload. -/
def emptyStatusPayload : statusPayload where
  OK := false
  ContainerName := ""
  ContainerRunning := false
  ContainerStatusLine := ""
  MCPURL := ""
  NoVNCURL := ""
  MCPHostCode := 0
  MCPContainerCode := 0
  NoVNCHostCode := 0
  NoVNCContainerCode := 0
  MCPReady := false
  NoVNCReady := false
  Error := ""

/-- Outcome of one HTTP GET at the transport level: either the transport
failed or a response with a status code arrived. -/
inductive probeOutcome
  | failure
  | response (code : Int)
  deriving DecidableEq, Repr

/-- probeHTTPStatus of cmd/surf/main.go: a transport failure yields code
0, otherwise the numeric status code of the response (the body is
discarded). -/
def probeHTTPStatus : probeOutcome → Int
  | .failure => 0
  | .response code => code

/-- probeContainerHTTPStatus of cmd/surf/main.go: the trimmed output of
curl inside the container parsed as an integer; any exec failure or an
unparseable output yields 0. -/
def probeContainerHTTPStatus (execResult : Except String String) : Int :=
  match execResult with
  | .error _ => 0
  | .ok out =>
    match parseGoInt (trimStr out) with
    | none => 0
    | some code => code

/-- Readiness of the primary (MCP) endpoint for a probe code. -/
def mcpCodeReady (code : Int) : Bool := code == 200 || code == 400

/-- Readiness of the secondary (noVNC) endpoint for a probe code. -/
def novncCodeReady (code : Int) : Bool := decide (200 ≤ code) && decide (code < 400)

/-- What the world answers to one evaluateStatus call: the docker ps
output (or its failure), the outcomes of the two host-side probes, and
the results of the two in-container exec probes. -/
structure statusEnv where
  psOut : Except String String
  mcpHostProbe : probeOutcome
  novncHostProbe : probeOutcome
  mcpExec : Except String String
  novncExec : Except String String

/-- evaluateStatus of cmd/surf/main.go against one world answer: a ps
failure is returned as the error; a container that is not running
short-circuits with a reason; otherwise each endpoint is probed from the
host and, only when not yet ready, from inside the container, and overall
OK requires both endpoints ready. -/
def evaluateStatus (cfg : browserConfig) (env : statusEnv) :
    statusPayload × Option String :=
  match env.psOut with
  | .error e =>
    ({ emptyStatusPayload with
        ContainerName := cfg.ContainerName
        MCPURL := mcpURL cfg
        NoVNCURL := novncURL cfg }, some e)
  | .ok psOut =>
    if trimStr psOut = "" then
      ({ emptyStatusPayload with
          ContainerName := cfg.ContainerName
          MCPURL := mcpURL cfg
          NoVNCURL := novncURL cfg
          ContainerStatusLine := trimStr psOut
          ContainerRunning := false
          Error := "container not running" }, none)
    else
      let mh := probeHTTPStatus env.mcpHostProbe
      let nh := probeHTTPStatus env.novncHostProbe
      let mc := if mcpCodeReady mh then 0 else probeContainerHTTPStatus env.mcpExec
      let nc := if novncCodeReady nh then 0 else probeContainerHTTPStatus env.novncExec
      let mReady := mcpCodeReady mh || mcpCodeReady mc
      let nReady := novncCodeReady nh || novncCodeReady nc
      ({ OK := mReady && nReady
         ContainerName := cfg.ContainerName
         ContainerRunning := true
         ContainerStatusLine := trimStr psOut
         MCPURL := mcpURL cfg
         NoVNCURL := novncURL cfg
         MCPHostCode := mh
         MCPContainerCode := mc
         NoVNCHostCode := nh
         NoVNCContainerCode := nc
         MCPReady := mReady
         NoVNCReady := nReady
         Error := if mReady && nReady then "" else "endpoint checks failed" }, none)

/-- The generic reason waitForStatus reports when no evaluation ever set
one. -/
def genericWaitErr : String := "browser health checks did not pass in time"

/-- The loop of waitForStatus: the evaluator is indexed by attempt number
(the world may answer differently on each attempt), the Nat argument is
the remaining attempt budget, and the payload argument is the last
evaluation seen. -/
def waitForStatusGo :
    (Nat → statusPayload × Option String) → Nat → statusPayload →
      statusPayload × Option String
  | _, 0, last =>
    if trimStr last.Error = "" then
      ({ last with Error := genericWaitErr }, some genericWaitErr)
    else (last, some last.Error)
  | eval, n + 1, _ =>
    match eval 0 with
    | (_, some e) => (emptyStatusPayload, some e)
    | (status, none) =>
      if status.OK then (status, none)
      else waitForStatusGo (fun i => eval (i + 1)) n status

/-- waitForStatus of cmd/surf/main.go: up to the given number of attempts
with a fixed delay between them (time is not modelled), returning the
first OK evaluation, propagating an evaluation error, and on exhaustion
returning the last payload with its failure reason, or the generic reason
when none was ever set. -/
def waitForStatus (eval : Nat → statusPayload × Option String) (retries : Nat) :
    statusPayload × Option String :=
  waitForStatusGo eval retries emptyStatusPayload

/-! Profile mount resolution of cmd/surf/main.go. -/

/-- Model of strings.HasPrefix by character lists. -/
def strStartsWith (s pre : String) : Bool := List.isPrefixOf pre.data s.data

/-- Model of strings.HasSuffix by character lists. -/
def strEndsWith (s post : String) : Bool := List.isSuffixOf post.data s.data

/-- Splitting a character list at the path separator, keeping empty
segments, as strings.Split does. -/
def splitSegsAux (cur : List Char) : List Char → List String
  | [] => [String.mk cur.reverse]
  | c :: rest =>
    if c = '/' then String.mk cur.reverse :: splitSegsAux [] rest
    else splitSegsAux (c :: cur) rest

/-- Joining segments with the path separator. -/
def joinSegs : List String → String
  | [] => ""
  | [s] => s
  | s :: rest => s ++ "/" ++ joinSegs rest

/-- The element-processing loop of path/filepath Clean (unix), over the
segments obtained by splitting on the separator: empty and dot segments
vanish, dotdot pops a previous segment or, in an unrooted path with
nothing to pop, is kept; in a rooted path a dotdot at the root vanishes.
The first list is the stack of output segments in reverse. -/
def pathCleanCore (rooted : Bool) : List String → List String → List String
  | stack, [] => stack.reverse
  | stack, seg :: rest =>
    if seg = "" ∨ seg = "." then pathCleanCore rooted stack rest
    else if seg = ".." then
      match stack with
      | [] => pathCleanCore rooted (if rooted then [] else [".."]) rest
      | top :: stack2 =>
        if top = ".." then pathCleanCore rooted (".." :: top :: stack2) rest
        else pathCleanCore rooted stack2 rest
    else pathCleanCore rooted (seg :: stack) rest

/-- Model of path/filepath Clean on unix paths. -/
def pathClean (path : String) : String :=
  if path = "" then "."
  else
    if strStartsWith path "/" then
      if joinSegs (pathCleanCore true [] (splitSegsAux [] path.data)) = ""
      then "/"
      else "/" ++ joinSegs (pathCleanCore true [] (splitSegsAux [] path.data))
    else
      if joinSegs (pathCleanCore false [] (splitSegsAux [] path.data)) = ""
      then "."
      else joinSegs (pathCleanCore false [] (splitSegsAux [] path.data))

/-- Model of path/filepath Join for two elements. -/
def joinPath (a b : String) : String := pathClean (a ++ "/" ++ b)

/-- expandTilde of cmd/surf/main.go. The home directory is a parameter:
none stands for os.UserHomeDir failing. -/
def expandTilde (home : Option String) (path : String) : String :=
  if trimStr path = "" then trimStr path
  else if strStartsWith (trimStr path) "~" then
    match home with
    | none => trimStr path
    | some h =>
      if trimStr h = "" then trimStr path
      else if trimStr path = "~" then h
      else if strStartsWith (trimStr path) "~/" then
        joinPath h (String.mk ((trimStr path).data.drop 2))
      else trimStr path
  else trimStr path

/-- resolveProfileMount of cmd/surf/main.go: a spec starting (after
trimming, case-insensitively) with the reserved volume prefix produces a
named volume surf-profile-<sanitized suffix> with no host path; anything
else is tilde-expanded, cleaned, and produces a bind mount at that host
path. The triple is (mount argument, host path, bind mount flag). -/
def resolveProfileMount (home : Option String) (profileDir : String) :
    String × String × Bool :=
  if strStartsWith (lowerString (trimStr profileDir)) "volume:" then
    ("surf-profile-"
        ++ (if sanitizeProfileName (trimStr (String.mk ((trimStr profileDir).data.drop 7))) = ""
            then "default"
            else sanitizeProfileName (trimStr (String.mk ((trimStr profileDir).data.drop 7))))
        ++ ":/home/pwuser/.playwright-mcp-profile",
      "", false)
  else
    (pathClean (expandTilde home (trimStr profileDir))
        ++ ":/home/pwuser/.playwright-mcp-profile",
      pathClean (expandTilde home (trimStr profileDir)), true)

/-! The host-process stop path of cmd/surf/main.go. -/

/-- hostProcessState of cmd/surf/main.go: the persisted record of a
launched host browser process. -/
structure hostProcessState where
  Profile : String
  PID : Int
  BrowserPath : String
  CDPPort : Int
  ProfileDir : String
  StartedAt : String
  LogFile : String
  deriving DecidableEq, Repr

/-- processAlive of cmd/surf/main.go: a non-positive pid is never alive,
otherwise the harmless signal 0 decides (its success is the oracle
argument). -/
def processAlive (kill0Succeeds : Bool) (pid : Int) : Bool :=
  if pid ≤ 0 then false else kill0Succeeds

/-- How cmdHostStop ends: a fatal error (missing or bad record) or a
success report for the profile and recorded pid. -/
inductive hostStopResult
  | fatalErr (msg : String)
  | success (profile : String) (pid : Int)
  deriving DecidableEq, Repr

/-- World answers for one cmdHostStop run: the record read for the
profile (none stands for a read or parse failure, including an absent
file), and the liveness oracle indexed by the number of the processAlive
call made after SIGTERM was sent. -/
structure hostStopEnv where
  readRecord : Option hostProcessState
  alive : Nat → Bool

/-- Observable outcome of cmdHostStop: the result, whether the record
file was removed, and whether the stop escalated to SIGKILL. -/
structure hostStopOutcome where
  result : hostStopResult
  recordRemoved : Bool
  sentSigkill : Bool
  deriving DecidableEq, Repr

/-- Index of the liveness call that follows the poll loop of cmdHostStop:
the loop polls up to 20 times, breaking at the first dead answer, and the
escalation check is one further call. -/
def stopPollFinal (aliveCall : Nat → Bool) : Nat → Nat → Nat
  | i, 0 => i
  | i, n + 1 => if aliveCall i then stopPollFinal aliveCall (i + 1) n else i + 1

/-- cmdHostStop of cmd/surf/main.go: load the record (failure is fatal), a
non-positive recorded pid is fatal, otherwise send SIGTERM, poll liveness
up to the grace window, escalate to SIGKILL if still alive, remove the
record file unconditionally and report success. -/
def cmdHostStop (env : hostStopEnv) (profile : String) : hostStopOutcome :=
  match env.readRecord with
  | none =>
    { result := .fatalErr "read host state failed"
      recordRemoved := false
      sentSigkill := false }
  | some st =>
    if st.PID ≤ 0 then
      { result := .fatalErr ("invalid pid for profile " ++ sanitizeProfileName profile)
        recordRemoved := false
        sentSigkill := false }
    else
      { result := .success (sanitizeProfileName profile) st.PID
        recordRemoved := true
        sentSigkill :=
          processAlive
            (env.alive (stopPollFinal (fun t => processAlive (env.alive t) st.PID) 0 20))
            st.PID }

/-! Concrete values used by the witnesses. -/

/-- A not-OK payload as evaluateStatus produces for failing endpoints. -/
def stubNotOkPayload : statusPayload :=
  { emptyStatusPayload with Error := "endpoint checks failed" }

/-- An OK payload. -/
def stubOkPayload : statusPayload :=
  { emptyStatusPayload with
      OK := true
      ContainerRunning := true
      MCPReady := true
      NoVNCReady := true }

/-- An evaluator that answers not-OK twice and then OK. -/
def stubConvergeEval (i : Nat) : statusPayload × Option String :=
  if i < 2 then (stubNotOkPayload, none) else (stubOkPayload, none)

/-- A configuration with the default addresses and ports. -/
def exampleConfig : browserConfig where
  ImageName := defaultImage
  ContainerName := defaultContainer
  Network := defaultNetwork
  ProfileName := defaultProfileName
  ProfileDir := ""
  HostBind := defaultHostBind
  HostMCPPort := defaultHostMCPPort
  HostNoVNCPort := defaultHostNoVNCPort
  MCPPort := defaultMCPPort
  NoVNCPort := defaultNoVNCPort
  VNCPassword := "surf"
  MCPVersion := defaultMCPVersion
  BrowserChannel := "chromium"
  AllowedHosts := "*"

/-- A world where the container runs, the host MCP probe answers 400, the
host noVNC probe fails at the transport level, and the in-container noVNC
probe answers 301. -/
def exampleStatusEnv : statusEnv where
  psOut := .ok (defaultContainer ++ "\tUp 2 minutes\t127.0.0.1:8932->8931/tcp")
  mcpHostProbe := .response 400
  novncHostProbe := .failure
  mcpExec := .error "exec failed"
  novncExec := .ok "301"

/-- A record for a process that already exited externally. -/
def exampleStaleRecord : hostProcessState where
  Profile := "work"
  PID := 4242
  BrowserPath := "/usr/bin/chromium"
  CDPPort := 18800
  ProfileDir := "/home/u/.surf/browser/profiles/host/work"
  StartedAt := "2026-02-27T00:00:00Z"
  LogFile := "/home/u/.surf/browser/host/work.log"

/-- A stop world whose recorded process is already gone: every liveness
probe answers dead. -/
def exampleStopEnv : hostStopEnv where
  readRecord := some exampleStaleRecord
  alive := fun _ => false

end Surf

namespace Surf

theorem mem_dropWhile {p : Char → Bool} : ∀ {l : List Char} {c : Char},
    c ∈ List.dropWhile p l → c ∈ l := by
  intro l
  induction l with
  | nil => intro c h; simp [List.dropWhile] at h
  | cons a t ih =>
    intro c h
    by_cases hp : p a
    · simp only [List.dropWhile, hp] at h
      exact List.mem_cons_of_mem a (ih h)
    · simp only [List.dropWhile, Bool.not_eq_true] at hp
      simp only [List.dropWhile, hp] at h
      exact h

theorem mem_dropEdge {p : Char → Bool} {l : List Char} {c : Char}
    (h : c ∈ dropEdge p l) : c ∈ l := by
  unfold dropEdge at h
  rw [List.mem_reverse] at h
  have h1 := mem_dropWhile h
  rw [List.mem_reverse] at h1
  exact mem_dropWhile h1

theorem dropWhile_head_false {p : Char → Bool} :
    ∀ {l : List Char} {c : Char} {rest : List Char},
    List.dropWhile p l = c :: rest → p c = false := by
  intro l
  induction l with
  | nil => intro c rest h; simp [List.dropWhile] at h
  | cons a t ih =>
    intro c rest h
    by_cases hp : p a
    · simp only [List.dropWhile, hp] at h
      exact ih h
    · simp only [List.dropWhile, Bool.not_eq_true] at hp
      simp only [List.dropWhile, hp] at h
      injection h with h1 h2
      exact h1 ▸ hp

theorem dropWhile_eq_self_of_head {p : Char → Bool} {l : List Char}
    (h : ∀ c rest, l = c :: rest → p c = false) :
    List.dropWhile p l = l := by
  cases l with
  | nil => simp [List.dropWhile]
  | cons a t =>
    have := h a t rfl
    simp [List.dropWhile, this]

theorem dropWhile_eq_self_of_all {p : Char → Bool} {l : List Char}
    (h : ∀ c ∈ l, p c = false) : List.dropWhile p l = l := by
  apply dropWhile_eq_self_of_head
  intro c rest hl
  exact h c (hl ▸ List.mem_cons_self c rest)

theorem dropEdge_eq_self_of_all {p : Char → Bool} {l : List Char}
    (h : ∀ c ∈ l, p c = false) : dropEdge p l = l := by
  unfold dropEdge
  rw [dropWhile_eq_self_of_all h,
      dropWhile_eq_self_of_all (fun c hc => h c (List.mem_reverse.mp hc)),
      List.reverse_reverse]

theorem dropWhile_idem (p : Char → Bool) (l : List Char) :
    List.dropWhile p (List.dropWhile p l) = List.dropWhile p l := by
  apply dropWhile_eq_self_of_head
  intro c rest h
  exact dropWhile_head_false h

theorem dropWhile_suffix_ex (p : Char → Bool) :
    ∀ l : List Char, ∃ t, t ++ List.dropWhile p l = l := by
  intro l
  induction l with
  | nil => exact ⟨[], rfl⟩
  | cons a t ih =>
    by_cases hp : p a
    · obtain ⟨u, hu⟩ := ih
      exact ⟨a :: u, by simp [List.dropWhile, hp, hu]⟩
    · exact ⟨[], by simp [List.dropWhile, hp]⟩

theorem collapseRuns_all_allowed :
    ∀ (b : Bool) (l : List Char) (c : Char),
    c ∈ collapseRunsAux b l → isAllowedChar c = true := by
  intro b l
  induction l generalizing b with
  | nil => intro c h; simp [collapseRunsAux] at h
  | cons a t ih =>
    intro c h
    by_cases ha : isAllowedChar a
    · simp only [collapseRunsAux, ha, if_true] at h
      rcases List.mem_cons.mp h with h1 | h1
      · exact h1 ▸ ha
      · exact ih false c h1
    · simp only [collapseRunsAux, ha, if_false] at h
      cases b with
      | true => simpa using ih true c (by simpa using h)
      | false =>
        rcases List.mem_cons.mp (by simpa using h) with h1 | h1
        · subst h1; decide
        · exact ih true c h1

theorem allowed_not_space {c : Char} (h : isAllowedChar c = true) :
    isSpaceChar c = false := by
  rcases Bool.eq_false_or_eq_true (isSpaceChar c) with hs | hs
  · exfalso
    simp only [isSpaceChar, Bool.or_eq_true, beq_iff_eq] at hs
    rcases hs with ((h1 | h1) | h1) | h1 <;> subst h1 <;> revert h <;> decide
  · exact hs

theorem allowed_not_upper {c : Char} (h : isAllowedChar c = true) :
    ¬(65 ≤ c.toNat ∧ c.toNat ≤ 90) := by
  simp only [isAllowedChar, Bool.or_eq_true, Bool.and_eq_true, decide_eq_true_eq,
    Nat.beq_eq_true_eq] at h
  omega

theorem lowerChar_allowed {c : Char} (h : isAllowedChar c = true) :
    lowerChar c = c := by
  rw [lowerChar, if_neg (allowed_not_upper h)]

theorem map_lowerChar_allowed {l : List Char} (h : ∀ c ∈ l, isAllowedChar c = true) :
    l.map lowerChar = l := by
  induction l with
  | nil => rfl
  | cons a t ih =>
    rw [List.map_cons, lowerChar_allowed (h a (List.mem_cons_self a t)),
      ih (fun c hc => h c (List.mem_cons_of_mem a hc))]

theorem collapseRuns_allowed_id {l : List Char} (h : ∀ c ∈ l, isAllowedChar c = true) :
    ∀ b, collapseRunsAux b l = l := by
  induction l with
  | nil => intro b; rfl
  | cons a t ih =>
    intro b
    rw [collapseRunsAux, if_pos (h a (List.mem_cons_self a t)),
      ih (fun c hc => h c (List.mem_cons_of_mem a hc)) false]

theorem goodName_default : goodName defaultProfileName.data := by
  refine ⟨by decide, by decide, by decide, by decide⟩

theorem sanitize_good (x : List Char) : goodName (sanitizeChars x) := by
  rw [sanitizeChars]
  by_cases h0 : trimChars x = []
  · rw [if_pos h0]
    exact goodName_default
  · rw [if_neg h0]
    set coll := collapseRunsAux false ((trimChars x).map lowerChar) with hcoll
    by_cases h1 : dropEdge isDash coll = []
    · rw [if_pos h1]
      exact goodName_default
    · rw [if_neg h1]
      have hallow : ∀ c ∈ dropEdge isDash coll, isAllowedChar c = true := by
        intro c hc
        exact collapseRuns_all_allowed false _ c (mem_dropEdge hc)
      refine ⟨h1, List.all_eq_true.mpr hallow, ?_, ?_⟩
      · -- the first character survives a further dash trim
        apply dropWhile_eq_self_of_head
        intro c rest hcr
        obtain ⟨t, ht⟩ := dropWhile_suffix_ex isDash ((List.dropWhile isDash coll).reverse)
        have hu : List.dropWhile isDash coll = dropEdge isDash coll ++ t.reverse := by
          have := congrArg List.reverse ht
          simpa [dropEdge, List.reverse_append] using this.symm
        rw [hcr] at hu
        exact dropWhile_head_false (l := coll) (by rw [hu]; rfl)
      · -- the last character survives a further dash trim
        have : (dropEdge isDash coll).reverse
            = List.dropWhile isDash ((List.dropWhile isDash coll).reverse) := by
          simp [dropEdge]
        rw [this, dropWhile_idem]

theorem sanitize_fix {y : List Char} (h : goodName y) : sanitizeChars y = y := by
  obtain ⟨hne, hall, hhead, hlast⟩ := h
  have hallm : ∀ c ∈ y, isAllowedChar c = true := List.all_eq_true.mp hall
  have htrim : trimChars y = y :=
    dropEdge_eq_self_of_all (fun c hc => allowed_not_space (hallm c hc))
  have hde : dropEdge isDash y = y := by
    rw [dropEdge, hhead, hlast, List.reverse_reverse]
  rw [sanitizeChars, htrim, if_neg hne, map_lowerChar_allowed hallm,
    collapseRuns_allowed_id hallm false, hde, if_neg hne]

/-- Claim C6: the profile-name sanitizer is total and idempotent. For every
input string x, sanitizeProfileName x is non-empty, every character of the
result lies in the class [a-z0-9_-] (so the result matches the anchored
regexp, with the empty result mapped to the default name), and applying the
sanitizer twice equals applying it once. -/
theorem sanitizeProfileName_spec (x : String) :
    sanitizeProfileName x ≠ "" ∧
    (sanitizeProfileName x).data.all isAllowedChar = true ∧
    sanitizeProfileName (sanitizeProfileName x) = sanitizeProfileName x := by
  have hg := sanitize_good x.data
  refine ⟨?_, hg.2.1, ?_⟩
  · intro he
    have : (sanitizeProfileName x).data = [] := by rw [he]
    exact hg.1 this
  · show String.mk (sanitizeChars (String.mk (sanitizeChars x.data)).data) = _
    rw [show (String.mk (sanitizeChars x.data)).data = sanitizeChars x.data from rfl,
      sanitize_fix hg]
    rfl

/-- Witness for claim C6 at a concrete input: a mixed-case, symbol-laden
name sanitizes to a fixed point of the sanitizer. -/
theorem sanitizeProfileName_spec_witness :
    sanitizeProfileName (sanitizeProfileName " My Profile! ") =
      sanitizeProfileName " My Profile! " ∧
    sanitizeProfileName " My Profile! " = "my-profile" := by
  exact ⟨(sanitizeProfileName_spec " My Profile! ").2.2, by decide⟩

theorem ne_empty_of_trim {v : String} (h : trimStr v ≠ "") : v ≠ "" := by
  intro he
  subst he
  exact h rfl

theorem defaultedStr_trim_ne {v d : String} (hd : trimStr d ≠ "") :
    trimStr (defaultedStr v d) ≠ "" := by
  unfold defaultedStr
  split_ifs with h
  · exact hd
  · exact h

theorem defaultedStr_idem {v d : String} (hd : trimStr d ≠ "") :
    defaultedStr (defaultedStr v d) d = defaultedStr v d := by
  rw [defaultedStr, if_neg (defaultedStr_trim_ne hd)]

theorem defaultedPos_pos {v d : Int} (hd : 0 < d) : 0 < defaultedPos v d := by
  unfold defaultedPos
  split_ifs with h
  · exact hd
  · omega

theorem defaultedPos_idem {v d : Int} (hd : 0 < d) :
    defaultedPos (defaultedPos v d) d = defaultedPos v d := by
  have h := defaultedPos_pos (v := v) hd
  rw [defaultedPos, if_neg (by omega)]

theorem defaultedSchema_pos (v : Int) : 0 < defaultedSchema v := by
  unfold defaultedSchema surfSettingsSchemaVersion
  split_ifs with h <;> omega

theorem defaultedSchema_idem (v : Int) :
    defaultedSchema (defaultedSchema v) = defaultedSchema v := by
  have h := defaultedSchema_pos v
  rw [defaultedSchema, if_neg (by omega)]

theorem normalizeMode_trim_ne (m : String) : trimStr (normalizeMode m) ≠ "" := by
  unfold normalizeMode
  split_ifs with h
  · exact defaultedStr_trim_ne (by decide)
  · decide

theorem normalizeMode_idem (m : String) :
    normalizeMode (normalizeMode m) = normalizeMode m := by
  by_cases h : lowerString (trimStr (defaultedStr m "quick")) = "quick"
      ∨ lowerString (trimStr (defaultedStr m "quick")) = "token"
  · have hr : normalizeMode m = defaultedStr m "quick" := by
      rw [normalizeMode, if_pos h]
    have hfix : defaultedStr (defaultedStr m "quick") "quick" = defaultedStr m "quick" :=
      defaultedStr_idem (by decide)
    rw [hr, normalizeMode, hfix, if_pos h]
  · have hr : normalizeMode m = "quick" := by
      rw [normalizeMode, if_neg h]
    rw [hr]
    decide

theorem trim_ne_root : trimStr defaultSurfConfigRoot ≠ "" := by decide

theorem trim_ne_file : trimStr defaultSurfConfigFile ≠ "" := by decide

theorem trim_ne_state : trimStr defaultSurfStateDirPath ≠ "" := by decide

theorem trim_ne_image : trimStr defaultImage ≠ "" := by decide

theorem trim_ne_container : trimStr defaultContainer ≠ "" := by decide

theorem trim_ne_network : trimStr defaultNetwork ≠ "" := by decide

theorem trim_ne_profile : trimStr defaultProfileName ≠ "" := by decide

theorem trim_ne_bind : trimStr defaultHostBind ≠ "" := by decide

theorem trim_ne_vnc : trimStr "surf" ≠ "" := by decide

theorem trim_ne_mcpver : trimStr defaultMCPVersion ≠ "" := by decide

theorem trim_ne_channel : trimStr "chromium" ≠ "" := by decide

theorem trim_ne_hosts : trimStr "*" ≠ "" := by decide

theorem trim_ne_tunnel : trimStr defaultTunnelName ≠ "" := by decide

theorem trim_ne_cfimg : trimStr defaultCloudflaredImg ≠ "" := by decide

theorem applySurfSettingsDefaults_idem (s : surfSettings) :
    applySurfSettingsDefaults (applySurfSettingsDefaults s) =
      applySurfSettingsDefaults s := by
  refine surfSettings.ext ?_ ?_ ?_ ?_ ?_
  · simp only [applySurfSettingsDefaults]
    exact defaultedSchema_idem _
  · refine surfSettingsPaths.ext ?_ ?_ ?_ <;> simp only [applySurfSettingsDefaults]
    · exact defaultedStr_idem trim_ne_root
    · exact defaultedStr_idem trim_ne_file
    · exact defaultedStr_idem trim_ne_state
  · refine surfBrowserSettings.ext ?_ ?_ ?_ ?_ ?_ ?_ ?_ ?_ ?_ ?_ ?_ ?_ ?_ ?_ <;>
      simp only [applySurfSettingsDefaults]
    · exact defaultedStr_idem trim_ne_image
    · exact defaultedStr_idem trim_ne_container
    · exact defaultedStr_idem trim_ne_network
    · exact defaultedStr_idem trim_ne_profile
    · exact defaultedStr_idem trim_ne_bind
    · exact defaultedPos_idem (by decide)
    · exact defaultedPos_idem (by decide)
    · exact defaultedPos_idem (by decide)
    · exact defaultedPos_idem (by decide)
    · exact defaultedStr_idem trim_ne_vnc
    · exact defaultedStr_idem trim_ne_mcpver
    · exact defaultedStr_idem trim_ne_channel
    · exact defaultedStr_idem trim_ne_hosts
  · refine surfTunnelSettings.ext ?_ ?_ ?_ ?_ ?_ <;> simp only [applySurfSettingsDefaults]
    · exact defaultedStr_idem trim_ne_tunnel
    · exact normalizeMode_idem _
    · exact defaultedStr_idem trim_ne_cfimg
  · simp only [applySurfSettingsDefaults]

theorem getD_omitStr_self (base : String) {v : String} (h : v ≠ "" ∨ base = "") :
    (omitStr v).getD base = v := by
  unfold omitStr
  split_ifs with hv
  · simp only [Option.getD_none]
    rcases h with h | h
    · exact absurd hv h
    · rw [h, hv]
  · simp

theorem getD_omitInt_self (base : Int) {v : Int} (h : v ≠ 0) :
    (omitInt v).getD base = v := by
  rw [omitInt, if_neg h]
  rfl

theorem unmarshal_marshal_saveNormalize (now : String) (s : surfSettings) :
    unmarshalInto defaultSurfSettings (marshalSettings (saveNormalize now s)) =
      saveNormalize now s := by
  refine surfSettings.ext ?_ ?_ ?_ ?_ ?_
  · simp only [unmarshalInto, marshalSettings, Option.getD_some]
  · refine surfSettingsPaths.ext ?_ ?_ ?_ <;>
      simp only [unmarshalInto, marshalSettings, saveNormalize,
        applySurfSettingsDefaults, defaultSurfSettings]
    · exact getD_omitStr_self _ (Or.inl (by decide))
    · exact getD_omitStr_self _ (Or.inl (by decide))
    · exact getD_omitStr_self _
        (Or.inl (ne_empty_of_trim (defaultedStr_trim_ne trim_ne_state)))
  · refine surfBrowserSettings.ext ?_ ?_ ?_ ?_ ?_ ?_ ?_ ?_ ?_ ?_ ?_ ?_ ?_ ?_ <;>
      simp only [unmarshalInto, marshalSettings, saveNormalize,
        applySurfSettingsDefaults, defaultSurfSettings]
    · exact getD_omitStr_self _
        (Or.inl (ne_empty_of_trim (defaultedStr_trim_ne trim_ne_image)))
    · exact getD_omitStr_self _
        (Or.inl (ne_empty_of_trim (defaultedStr_trim_ne trim_ne_container)))
    · exact getD_omitStr_self _
        (Or.inl (ne_empty_of_trim (defaultedStr_trim_ne trim_ne_network)))
    · exact getD_omitStr_self _
        (Or.inl (ne_empty_of_trim (defaultedStr_trim_ne trim_ne_profile)))
    · exact getD_omitStr_self _ (Or.inr rfl)
    · exact getD_omitStr_self _
        (Or.inl (ne_empty_of_trim (defaultedStr_trim_ne trim_ne_bind)))
    · exact getD_omitInt_self _ (defaultedPos_pos (by decide)).ne'
    · exact getD_omitInt_self _ (defaultedPos_pos (by decide)).ne'
    · exact getD_omitInt_self _ (defaultedPos_pos (by decide)).ne'
    · exact getD_omitInt_self _ (defaultedPos_pos (by decide)).ne'
    · exact getD_omitStr_self _
        (Or.inl (ne_empty_of_trim (defaultedStr_trim_ne trim_ne_vnc)))
    · exact getD_omitStr_self _
        (Or.inl (ne_empty_of_trim (defaultedStr_trim_ne trim_ne_mcpver)))
    · exact getD_omitStr_self _
        (Or.inl (ne_empty_of_trim (defaultedStr_trim_ne trim_ne_channel)))
    · exact getD_omitStr_self _
        (Or.inl (ne_empty_of_trim (defaultedStr_trim_ne trim_ne_hosts)))
  · refine surfTunnelSettings.ext ?_ ?_ ?_ ?_ ?_ <;>
      simp only [unmarshalInto, marshalSettings, saveNormalize,
        applySurfSettingsDefaults, defaultSurfSettings]
    · exact getD_omitStr_self _
        (Or.inl (ne_empty_of_trim (defaultedStr_trim_ne trim_ne_tunnel)))
    · exact getD_omitStr_self _ (Or.inr rfl)
    · exact getD_omitStr_self _
        (Or.inl (ne_empty_of_trim (normalizeMode_trim_ne _)))
    · exact getD_omitStr_self _
        (Or.inl (ne_empty_of_trim (defaultedStr_trim_ne trim_ne_cfimg)))
    · exact getD_omitStr_self _ (Or.inr rfl)
  · refine surfSettingsMetadata.ext ?_
    simp only [unmarshalInto, marshalSettings, saveNormalize,
      applySurfSettingsDefaults, defaultSurfSettings]
    exact getD_omitStr_self _ (Or.inr rfl)

theorem applyDefaults_saveNormalize (now : String) (s : surfSettings) :
    applySurfSettingsDefaults (saveNormalize now s) = saveNormalize now s := by
  refine surfSettings.ext ?_ ?_ ?_ ?_ ?_
  · simp only [saveNormalize, applySurfSettingsDefaults]
    exact defaultedSchema_idem _
  · refine surfSettingsPaths.ext ?_ ?_ ?_ <;>
      simp only [saveNormalize, applySurfSettingsDefaults]
    · decide
    · decide
    · exact defaultedStr_idem trim_ne_state
  · refine surfBrowserSettings.ext ?_ ?_ ?_ ?_ ?_ ?_ ?_ ?_ ?_ ?_ ?_ ?_ ?_ ?_ <;>
      simp only [saveNormalize, applySurfSettingsDefaults]
    · exact defaultedStr_idem trim_ne_image
    · exact defaultedStr_idem trim_ne_container
    · exact defaultedStr_idem trim_ne_network
    · exact defaultedStr_idem trim_ne_profile
    · exact defaultedStr_idem trim_ne_bind
    · exact defaultedPos_idem (by decide)
    · exact defaultedPos_idem (by decide)
    · exact defaultedPos_idem (by decide)
    · exact defaultedPos_idem (by decide)
    · exact defaultedStr_idem trim_ne_vnc
    · exact defaultedStr_idem trim_ne_mcpver
    · exact defaultedStr_idem trim_ne_channel
    · exact defaultedStr_idem trim_ne_hosts
  · refine surfTunnelSettings.ext ?_ ?_ ?_ ?_ ?_ <;>
      simp only [saveNormalize, applySurfSettingsDefaults]
    · exact defaultedStr_idem trim_ne_tunnel
    · exact normalizeMode_idem _
    · exact defaultedStr_idem trim_ne_cfimg
  · simp only [saveNormalize, applySurfSettingsDefaults]

/-- Claim C1 counterexample: saving a settings value whose schema_version
is 2 stores schema_version 2, not the schema constant 1 — save does not
force the field to the constant when it is already positive. -/
theorem save_schemaVersion_counterexample :
    (saveSurfSettings "2026-02-27T00:00:00Z"
        { defaultSurfSettings with SchemaVersion := 2 }).schemaVersion ≠ some 1 ∧
    (saveSurfSettings "2026-02-27T00:00:00Z"
        { defaultSurfSettings with SchemaVersion := 2 }).schemaVersion = some 2 := by
  decide

/-- Claim C1, amended: the schema_version stored by saveSurfSettings is
the schema constant exactly when the incoming value is not positive, and
the incoming value itself otherwise (applySurfSettingsDefaults only
replaces a non-positive schema_version). -/
theorem save_schemaVersion_amended (s : surfSettings) (now : String) :
    (saveSurfSettings now s).schemaVersion =
      some (if s.SchemaVersion ≤ 0 then surfSettingsSchemaVersion
            else s.SchemaVersion) := by
  rfl

/-- Claim C3: loading a settings file that exists but is unreadable, or
that cannot be parsed, does not fail the caller: loadSurfSettings returns
the fully normalized default settings together with a non-nil diagnostic,
and loadSurfSettingsOrDefault returns the normalized defaults. (In the
model both functions are total: no unrecoverable error exists.) -/
theorem load_corrupt_settings_spec (now : String) :
    (loadSurfSettings now .unreadable).1
        = applySurfSettingsDefaults defaultSurfSettings ∧
    (loadSurfSettings now .unreadable).2.1 = some .readError ∧
    (loadSurfSettings now .unparseable).1
        = applySurfSettingsDefaults defaultSurfSettings ∧
    (loadSurfSettings now .unparseable).2.1 = some .parseError ∧
    loadSurfSettingsOrDefault now .unreadable
        = applySurfSettingsDefaults defaultSurfSettings ∧
    loadSurfSettingsOrDefault now .unparseable
        = applySurfSettingsDefaults defaultSurfSettings := by
  exact ⟨rfl, rfl, rfl, rfl, rfl, rfl⟩

/-- Claim C2 counterexample: the round trip does not preserve every
field. A settings value whose paths.root is "/custom" loads back with the
forced constant root, not with its normalized root. -/
theorem load_after_save_counterexample :
    (loadSurfSettings "t2" (.stored (saveSurfSettings "t1"
        { defaultSurfSettings with
            Paths := { defaultSurfSettings.Paths with
                         Root := "/custom" } }))).1.Paths.Root
      ≠ (applySurfSettingsDefaults
          { defaultSurfSettings with
              Paths := { defaultSurfSettings.Paths with
                           Root := "/custom" } }).Paths.Root ∧
    (loadSurfSettings "t2" (.stored (saveSurfSettings "t1"
        { defaultSurfSettings with
            Paths := { defaultSurfSettings.Paths with
                         Root := "/custom" } }))).1.Paths.Root
      = defaultSurfConfigRoot := by
  decide

/-- Claim C2, amended: loading right after saving returns the settings
value normalized by applySurfSettingsDefaults on every field except
paths.root and paths.settings_file, which save forces to the default
constants, and metadata.updated_at, which save stamps with the save time;
and the load reports no error. -/
theorem load_after_save_amended (s : surfSettings) (now now2 : String) :
    (loadSurfSettings now2 (.stored (saveSurfSettings now s))).1 =
      { applySurfSettingsDefaults s with
          Paths :=
            { (applySurfSettingsDefaults s).Paths with
                Root := defaultSurfConfigRoot
                SettingsFile := defaultSurfConfigFile }
          Metadata := { UpdatedAt := now } } ∧
    (loadSurfSettings now2 (.stored (saveSurfSettings now s))).2.1 = none := by
  constructor
  · show applySurfSettingsDefaults
        (unmarshalInto defaultSurfSettings (saveSurfSettings now s)) = _
    rw [saveSurfSettings, unmarshal_marshal_saveNormalize, applyDefaults_saveNormalize]
    rfl
  · rfl

/-- Claim C10 counterexample: the probe URL does not embed the configured
bind address verbatim; a bind address with surrounding whitespace is
trimmed before being placed in the URL. -/
theorem probe_url_host_counterexample :
    trimStr " 10.0.0.5" ≠ "" ∧ trimStr " 10.0.0.5" ≠ "0.0.0.0" ∧
    mcpURL { exampleConfig with HostBind := " 10.0.0.5" }
      ≠ "http:// 10.0.0.5:8932/mcp" ∧
    mcpURL { exampleConfig with HostBind := " 10.0.0.5" }
      = "http://10.0.0.5:8932/mcp" := by
  decide

/-- Claim C10, amended: mcpURL and novncURL use host 127.0.0.1 whenever
the configured bind address is blank after trimming whitespace or equals
0.0.0.0 after trimming, and use the trimmed bind address otherwise. -/
theorem probe_url_host_amended (cfg : browserConfig) :
    mcpURL cfg =
      "http://"
        ++ (if trimStr cfg.HostBind = "" ∨ trimStr cfg.HostBind = "0.0.0.0"
            then "127.0.0.1" else trimStr cfg.HostBind)
        ++ ":" ++ toString cfg.HostMCPPort ++ "/mcp" ∧
    novncURL cfg =
      "http://"
        ++ (if trimStr cfg.HostBind = "" ∨ trimStr cfg.HostBind = "0.0.0.0"
            then "127.0.0.1" else trimStr cfg.HostBind)
        ++ ":" ++ toString cfg.HostNoVNCPort
        ++ "/vnc.html?autoconnect=1&resize=scale" := by
  exact ⟨rfl, rfl⟩

/-- Claim C4: with the container running, evaluateStatus classifies the
primary (MCP) endpoint ready exactly when one of its probe codes (host
path, or in-container fallback) is 200 or 400, and the secondary (noVNC)
endpoint ready exactly when one of its probe codes c satisfies
200 ≤ c < 400; code 500 is ready for neither endpoint; and a transport
failure in probeHTTPStatus yields code 0, which neither endpoint
classifies ready. -/
theorem evaluateStatus_readiness_spec (cfg : browserConfig) (env : statusEnv)
    (psLine : String) (hps : env.psOut = .ok psLine) (hrun : trimStr psLine ≠ "") :
    ((evaluateStatus cfg env).1.MCPReady
        = (mcpCodeReady (probeHTTPStatus env.mcpHostProbe)
            || mcpCodeReady (probeContainerHTTPStatus env.mcpExec))) ∧
    ((evaluateStatus cfg env).1.NoVNCReady
        = (novncCodeReady (probeHTTPStatus env.novncHostProbe)
            || novncCodeReady (probeContainerHTTPStatus env.novncExec))) ∧
    (∀ c : Int, mcpCodeReady c = true ↔ (c = 200 ∨ c = 400)) ∧
    (∀ c : Int, novncCodeReady c = true ↔ (200 ≤ c ∧ c < 400)) ∧
    mcpCodeReady 500 = false ∧ novncCodeReady 500 = false ∧
    probeHTTPStatus .failure = 0 ∧ mcpCodeReady 0 = false ∧
    novncCodeReady 0 = false := by
  refine ⟨?_, ?_, ?_, ?_, by decide, by decide, rfl, by decide, by decide⟩
  · simp only [evaluateStatus, hps, hrun, if_false]
    by_cases hm : mcpCodeReady (probeHTTPStatus env.mcpHostProbe) <;> simp [hm]
  · simp only [evaluateStatus, hps, hrun, if_false]
    by_cases hn : novncCodeReady (probeHTTPStatus env.novncHostProbe) <;> simp [hn]
  · intro c
    simp [mcpCodeReady]
  · intro c
    simp [novncCodeReady, and_comm]

/-- Witness for claim C4: a concrete running container whose MCP endpoint
answers 400 from the host and whose noVNC endpoint fails at the transport
level from the host but answers 301 from inside the container is
classified ready on both endpoints. -/
theorem evaluateStatus_readiness_spec_witness :
    (evaluateStatus exampleConfig exampleStatusEnv).1.MCPReady = true ∧
    (evaluateStatus exampleConfig exampleStatusEnv).1.NoVNCReady = true := by
  have h := evaluateStatus_readiness_spec exampleConfig exampleStatusEnv
    (defaultContainer ++ "\tUp 2 minutes\t127.0.0.1:8932->8931/tcp") rfl (by decide)
  exact ⟨by rw [h.1]; decide, by rw [h.2.1]; decide⟩

theorem waitForStatusGo_first_ok :
    ∀ (k : Nat) (eval : Nat → statusPayload × Option String) (n : Nat)
      (last : statusPayload),
      k < n →
      (∀ j, j < n → (eval j).2 = none) →
      (∀ j, j < k → ((eval j).1).OK = false) →
      ((eval k).1).OK = true →
      waitForStatusGo eval n last = ((eval k).1, none) := by
  intro k
  induction k with
  | zero =>
    intro eval n last hk hne _ hok
    obtain ⟨m, rfl⟩ : ∃ m, n = m + 1 := ⟨n - 1, by omega⟩
    have h0 := hne 0 (by omega)
    rcases hev : eval 0 with ⟨st, oe⟩
    rw [hev] at h0 hok
    have h0' : oe = none := h0
    subst h0'
    have hok' : st.OK = true := hok
    have h1 : waitForStatusGo eval (m + 1) last
        = (match eval 0 with
           | (_, some e) => (emptyStatusPayload, some e)
           | (status, none) =>
             if status.OK then (status, none)
             else waitForStatusGo (fun i => eval (i + 1)) m status) := rfl
    rw [h1, hev]
    show (if st.OK then (st, none)
          else waitForStatusGo (fun i => eval (i + 1)) m st) = (st, none)
    rw [if_pos hok']
  | succ k ih =>
    intro eval n last hk hne hb hok
    obtain ⟨m, rfl⟩ : ∃ m, n = m + 1 := ⟨n - 1, by omega⟩
    have h0 := hne 0 (by omega)
    rcases hev : eval 0 with ⟨st, oe⟩
    rw [hev] at h0
    have h0' : oe = none := h0
    subst h0'
    have hst : st.OK = false := by
      have hb0 := hb 0 (by omega)
      rw [hev] at hb0
      exact hb0
    have h1 : waitForStatusGo eval (m + 1) last
        = (match eval 0 with
           | (_, some e) => (emptyStatusPayload, some e)
           | (status, none) =>
             if status.OK then (status, none)
             else waitForStatusGo (fun i => eval (i + 1)) m status) := rfl
    rw [h1, hev]
    show (if st.OK then (st, none)
          else waitForStatusGo (fun i => eval (i + 1)) m st)
        = ((eval (k + 1)).1, none)
    rw [if_neg (by simp [hst])]
    exact ih (fun i => eval (i + 1)) m st (by omega)
      (fun j hj => hne (j + 1) (by omega))
      (fun j hj => hb (j + 1) (by omega))
      hok

theorem waitForStatusGo_exhaust :
    ∀ (n : Nat) (eval : Nat → statusPayload × Option String) (last : statusPayload),
      (∀ j, j < n + 1 → (eval j).2 = none ∧ ((eval j).1).OK = false) →
      waitForStatusGo eval (n + 1) last = waitForStatusGo eval 0 ((eval n).1) := by
  intro n
  induction n with
  | zero =>
    intro eval last hall
    rcases hev : eval 0 with ⟨st, oe⟩
    have h0 := hall 0 (by omega)
    rw [hev] at h0
    have h0e : oe = none := h0.1
    subst h0e
    have h0ok : st.OK = false := h0.2
    have h1 : waitForStatusGo eval 1 last
        = (match eval 0 with
           | (_, some e) => (emptyStatusPayload, some e)
           | (status, none) =>
             if status.OK then (status, none)
             else waitForStatusGo (fun i => eval (i + 1)) 0 status) := rfl
    rw [h1, hev]
    show (if st.OK then (st, none)
          else waitForStatusGo (fun i => eval (i + 1)) 0 st)
        = waitForStatusGo eval 0 ((st, (none : Option String)).1)
    rw [if_neg (by simp [h0ok])]
    rfl
  | succ m ih =>
    intro eval last hall
    rcases hev : eval 0 with ⟨st, oe⟩
    have h0 := hall 0 (by omega)
    rw [hev] at h0
    have h0e : oe = none := h0.1
    subst h0e
    have h0ok : st.OK = false := h0.2
    have h1 : waitForStatusGo eval (m + 1 + 1) last
        = (match eval 0 with
           | (_, some e) => (emptyStatusPayload, some e)
           | (status, none) =>
             if status.OK then (status, none)
             else waitForStatusGo (fun i => eval (i + 1)) (m + 1) status) := rfl
    rw [h1, hev]
    show (if st.OK then (st, none)
          else waitForStatusGo (fun i => eval (i + 1)) (m + 1) st)
        = waitForStatusGo eval 0 ((eval (m + 1)).1)
    rw [if_neg (by simp [h0ok])]
    rw [ih (fun i => eval (i + 1)) st (fun j hj => hall (j + 1) (by omega))]
    rfl

/-- Claim C5: waitForStatus evaluates status up to the attempt budget
(with a fixed delay between attempts, not modelled as time here). When
every attempt evaluates without error, it returns the first OK evaluation
with no error as soon as one attempt succeeds; on exhaustion it returns
an error carrying the last observed failure reason, or the generic
timeout reason if none was ever set. -/
theorem waitForStatus_spec (eval : Nat → statusPayload × Option String)
    (retries : Nat) :
    (∀ k, k < retries → (∀ j, j < retries → (eval j).2 = none) →
      (∀ j, j < k → ((eval j).1).OK = false) → ((eval k).1).OK = true →
      waitForStatus eval retries = ((eval k).1, none)) ∧
    (0 < retries →
      (∀ j, j < retries → (eval j).2 = none ∧ ((eval j).1).OK = false) →
      waitForStatus eval retries =
        (if trimStr ((eval (retries - 1)).1).Error = "" then
          ({ (eval (retries - 1)).1 with Error := genericWaitErr },
            some genericWaitErr)
        else ((eval (retries - 1)).1, some ((eval (retries - 1)).1).Error))) := by
  constructor
  · intro k hk hne hb hok
    exact waitForStatusGo_first_ok k eval retries emptyStatusPayload hk hne hb hok
  · intro hpos hall
    obtain ⟨m, rfl⟩ : ∃ m, retries = m + 1 := ⟨retries - 1, by omega⟩
    rw [waitForStatus, waitForStatusGo_exhaust m eval emptyStatusPayload hall]
    rfl

/-- Witness for claim C5, the convergence scenario: with an attempt
budget of 3 against an evaluator that answers not-OK twice and then OK,
the loop converges on the third attempt and returns the OK payload with
no error. -/
theorem waitForStatus_spec_witness :
    waitForStatus stubConvergeEval 3 = (stubOkPayload, none) := by
  have h := (waitForStatus_spec stubConvergeEval 3).1 2 (by omega)
    (by decide) (by decide) (by decide)
  rw [h]
  decide

/-- Claim C7: resolveProfileMount on "volume:ls" produces the named
volume surf-profile-ls with no host path and no bind mount; on any input
that does not carry the reserved volume prefix it produces a bind mount
whose host path is the tilde-expanded, cleaned path; and for
"~/state/profile" (with home directory /home/u) that host path is
/home/u/state/profile, which ends in /state/profile. -/
theorem resolveProfileMount_spec :
    (∀ home, resolveProfileMount home "volume:ls"
      = ("surf-profile-ls:/home/pwuser/.playwright-mcp-profile", "", false)) ∧
    (∀ home dir, strStartsWith (lowerString (trimStr dir)) "volume:" = false →
      resolveProfileMount home dir
        = (pathClean (expandTilde home (trimStr dir))
            ++ ":/home/pwuser/.playwright-mcp-profile",
          pathClean (expandTilde home (trimStr dir)), true)) ∧
    (resolveProfileMount (some "/home/u") "~/state/profile"
        = ("/home/u/state/profile:/home/pwuser/.playwright-mcp-profile",
          "/home/u/state/profile", true) ∧
      strEndsWith "/home/u/state/profile" "/state/profile" = true) := by
  refine ⟨fun home => rfl, ?_, by decide, by decide⟩
  intro home dir h
  simp only [resolveProfileMount, h, Bool.false_eq_true, if_false]

/-- Witness for claim C7: a non-prefixed path with a dotdot segment is
resolved as a bind mount at the cleaned path. -/
theorem resolveProfileMount_spec_witness :
    resolveProfileMount none "/x/../y"
      = ("/y:/home/pwuser/.playwright-mcp-profile", "/y", true) := by
  have h := resolveProfileMount_spec.2.1 none "/x/../y" (by decide)
  rw [h]
  decide

theorem setValueErrSpec_not_of_plain {key value k0 : String}
    (h : lowerString (trimStr key) = k0) (hin : k0 ∈ surfConfigKeys)
    (hport : k0 ∉ surfConfigPortKeys) (hmode : k0 ≠ "tunnel.mode") :
    ¬ setValueErrSpec key value := by
  unfold setValueErrSpec
  rw [h]
  rintro (hc | ⟨hc, _⟩ | ⟨hc, _, _⟩)
  · exact hc hin
  · exact hport hc
  · exact hmode hc

theorem setValueErrSpec_of_port {key value k0 : String}
    (h : lowerString (trimStr key) = k0) (hport : k0 ∈ surfConfigPortKeys)
    (hp : parseGoInt (trimStr value) = none) : setValueErrSpec key value := by
  unfold setValueErrSpec
  rw [h]
  exact Or.inr (Or.inl ⟨hport, hp⟩)

theorem setValueErrSpec_not_of_port {key value k0 : String} {n : Int}
    (h : lowerString (trimStr key) = k0) (hin : k0 ∈ surfConfigKeys)
    (hmode : k0 ≠ "tunnel.mode") (hp : parseGoInt (trimStr value) = some n) :
    ¬ setValueErrSpec key value := by
  unfold setValueErrSpec
  rw [h, hp]
  rintro (hc | ⟨_, hc⟩ | ⟨hc, _, _⟩)
  · exact hc hin
  · exact Option.noConfusion hc
  · exact hmode hc

theorem setValueErrSpec_of_mode {key value : String}
    (h : lowerString (trimStr key) = "tunnel.mode")
    (hm : ¬(lowerString (trimStr value) = "quick"
        ∨ lowerString (trimStr value) = "token")) :
    setValueErrSpec key value := by
  unfold setValueErrSpec
  rw [h]
  exact Or.inr (Or.inr ⟨rfl, (not_or.mp hm).1, (not_or.mp hm).2⟩)

theorem setValueErrSpec_not_of_mode {key value : String}
    (h : lowerString (trimStr key) = "tunnel.mode")
    (hm : lowerString (trimStr value) = "quick"
        ∨ lowerString (trimStr value) = "token") :
    ¬ setValueErrSpec key value := by
  unfold setValueErrSpec
  rw [h]
  rintro (hc | ⟨hc, _⟩ | ⟨_, hq, ht⟩)
  · exact hc (by decide)
  · exact absurd hc (by decide)
  · rcases hm with hm | hm
    · exact hq hm
    · exact ht hm

theorem setSurfConfigValue_chars (s : surfSettings) (key value : String) :
    (∃ t, setSurfConfigValue s key value = (applySurfSettingsDefaults t, none)
        ∧ ¬ setValueErrSpec key value)
    ∨ (∃ m, setSurfConfigValue s key value = (s, some m)
        ∧ setValueErrSpec key value) := by
  simp only [setSurfConfigValue]
  rcases eq_or_ne (lowerString (trimStr key)) "paths.state_dir" with h1 | h1
  · rw [if_pos h1]
    exact Or.inl ⟨_, rfl,
      setValueErrSpec_not_of_plain h1 (by decide) (by decide) (by decide)⟩
  rw [if_neg h1]
  rcases eq_or_ne (lowerString (trimStr key)) "browser.image_name" with h2 | h2
  · rw [if_pos h2]
    exact Or.inl ⟨_, rfl,
      setValueErrSpec_not_of_plain h2 (by decide) (by decide) (by decide)⟩
  rw [if_neg h2]
  rcases eq_or_ne (lowerString (trimStr key)) "browser.container_name" with h3 | h3
  · rw [if_pos h3]
    exact Or.inl ⟨_, rfl,
      setValueErrSpec_not_of_plain h3 (by decide) (by decide) (by decide)⟩
  rw [if_neg h3]
  rcases eq_or_ne (lowerString (trimStr key)) "browser.network" with h4 | h4
  · rw [if_pos h4]
    exact Or.inl ⟨_, rfl,
      setValueErrSpec_not_of_plain h4 (by decide) (by decide) (by decide)⟩
  rw [if_neg h4]
  rcases eq_or_ne (lowerString (trimStr key)) "browser.profile_name" with h5 | h5
  · rw [if_pos h5]
    exact Or.inl ⟨_, rfl,
      setValueErrSpec_not_of_plain h5 (by decide) (by decide) (by decide)⟩
  rw [if_neg h5]
  rcases eq_or_ne (lowerString (trimStr key)) "browser.profile_dir" with h6 | h6
  · rw [if_pos h6]
    exact Or.inl ⟨_, rfl,
      setValueErrSpec_not_of_plain h6 (by decide) (by decide) (by decide)⟩
  rw [if_neg h6]
  rcases eq_or_ne (lowerString (trimStr key)) "browser.host_bind" with h7 | h7
  · rw [if_pos h7]
    exact Or.inl ⟨_, rfl,
      setValueErrSpec_not_of_plain h7 (by decide) (by decide) (by decide)⟩
  rw [if_neg h7]
  rcases eq_or_ne (lowerString (trimStr key)) "browser.host_mcp_port" with h8 | h8
  · rw [if_pos h8]
    rcases hp : parseGoInt (trimStr value) with _ | n
    · exact Or.inr ⟨_, rfl, setValueErrSpec_of_port h8 (by decide) hp⟩
    · exact Or.inl ⟨_, rfl,
        setValueErrSpec_not_of_port h8 (by decide) (by decide) hp⟩
  rw [if_neg h8]
  rcases eq_or_ne (lowerString (trimStr key)) "browser.host_novnc_port" with h9 | h9
  · rw [if_pos h9]
    rcases hp : parseGoInt (trimStr value) with _ | n
    · exact Or.inr ⟨_, rfl, setValueErrSpec_of_port h9 (by decide) hp⟩
    · exact Or.inl ⟨_, rfl,
        setValueErrSpec_not_of_port h9 (by decide) (by decide) hp⟩
  rw [if_neg h9]
  rcases eq_or_ne (lowerString (trimStr key)) "browser.mcp_port" with h10 | h10
  · rw [if_pos h10]
    rcases hp : parseGoInt (trimStr value) with _ | n
    · exact Or.inr ⟨_, rfl, setValueErrSpec_of_port h10 (by decide) hp⟩
    · exact Or.inl ⟨_, rfl,
        setValueErrSpec_not_of_port h10 (by decide) (by decide) hp⟩
  rw [if_neg h10]
  rcases eq_or_ne (lowerString (trimStr key)) "browser.novnc_port" with h11 | h11
  · rw [if_pos h11]
    rcases hp : parseGoInt (trimStr value) with _ | n
    · exact Or.inr ⟨_, rfl, setValueErrSpec_of_port h11 (by decide) hp⟩
    · exact Or.inl ⟨_, rfl,
        setValueErrSpec_not_of_port h11 (by decide) (by decide) hp⟩
  rw [if_neg h11]
  rcases eq_or_ne (lowerString (trimStr key)) "browser.vnc_password" with h12 | h12
  · rw [if_pos h12]
    exact Or.inl ⟨_, rfl,
      setValueErrSpec_not_of_plain h12 (by decide) (by decide) (by decide)⟩
  rw [if_neg h12]
  rcases eq_or_ne (lowerString (trimStr key)) "browser.mcp_version" with h13 | h13
  · rw [if_pos h13]
    exact Or.inl ⟨_, rfl,
      setValueErrSpec_not_of_plain h13 (by decide) (by decide) (by decide)⟩
  rw [if_neg h13]
  rcases eq_or_ne (lowerString (trimStr key)) "browser.browser_channel" with h14 | h14
  · rw [if_pos h14]
    exact Or.inl ⟨_, rfl,
      setValueErrSpec_not_of_plain h14 (by decide) (by decide) (by decide)⟩
  rw [if_neg h14]
  rcases eq_or_ne (lowerString (trimStr key)) "browser.allowed_hosts" with h15 | h15
  · rw [if_pos h15]
    exact Or.inl ⟨_, rfl,
      setValueErrSpec_not_of_plain h15 (by decide) (by decide) (by decide)⟩
  rw [if_neg h15]
  rcases eq_or_ne (lowerString (trimStr key)) "tunnel.container_name" with h16 | h16
  · rw [if_pos h16]
    exact Or.inl ⟨_, rfl,
      setValueErrSpec_not_of_plain h16 (by decide) (by decide) (by decide)⟩
  rw [if_neg h16]
  rcases eq_or_ne (lowerString (trimStr key)) "tunnel.target_url" with h17 | h17
  · rw [if_pos h17]
    exact Or.inl ⟨_, rfl,
      setValueErrSpec_not_of_plain h17 (by decide) (by decide) (by decide)⟩
  rw [if_neg h17]
  rcases eq_or_ne (lowerString (trimStr key)) "tunnel.mode" with h18 | h18
  · rw [if_pos h18]
    by_cases h19 : lowerString (trimStr value) = "quick"
        ∨ lowerString (trimStr value) = "token"
    · rw [if_pos h19]
      exact Or.inl ⟨_, rfl, setValueErrSpec_not_of_mode h18 h19⟩
    · rw [if_neg h19]
      exact Or.inr ⟨_, rfl, setValueErrSpec_of_mode h18 h19⟩
  rw [if_neg h18]
  rcases eq_or_ne (lowerString (trimStr key)) "tunnel.image" with h20 | h20
  · rw [if_pos h20]
    exact Or.inl ⟨_, rfl,
      setValueErrSpec_not_of_plain h20 (by decide) (by decide) (by decide)⟩
  rw [if_neg h20]
  rcases eq_or_ne (lowerString (trimStr key)) "tunnel.vault_key" with h21 | h21
  · rw [if_pos h21]
    exact Or.inl ⟨_, rfl,
      setValueErrSpec_not_of_plain h21 (by decide) (by decide) (by decide)⟩
  rw [if_neg h21]
  refine Or.inr ⟨_, rfl, Or.inl ?_⟩
  simp [surfConfigKeys, h1, h2, h3, h4, h5, h6, h7, h8, h9, h10, h11, h12, h13,
    h14, h15, h16, h17, h18, h20, h21]

/-- Claim C8: setSurfConfigValue returns a hard error exactly when the
key is outside the supported restricted namespace, when a port-typed key
receives a value that fails integer coercion, or when tunnel.mode
receives a value accepted as neither quick nor token (keys and the mode
value are compared after trimming and lowercasing, as the code does); in
every error case the settings value is unchanged, and on success the
result is a fixed point of applySurfSettingsDefaults, that is,
re-normalized. Nothing is persisted: the function does not touch the
settings file state. -/
theorem setSurfConfigValue_spec (s : surfSettings) (key value : String) :
    ((setSurfConfigValue s key value).2.isSome = true ↔ setValueErrSpec key value) ∧
    ((setSurfConfigValue s key value).2.isSome = true →
      (setSurfConfigValue s key value).1 = s) ∧
    ((setSurfConfigValue s key value).2 = none →
      (setSurfConfigValue s key value).1
        = applySurfSettingsDefaults (setSurfConfigValue s key value).1) := by
  rcases setSurfConfigValue_chars s key value with ⟨t, ht, hno⟩ | ⟨m, hm, hyes⟩
  · rw [ht]
    exact ⟨iff_of_false (by simp) hno, fun hc => absurd hc (by simp),
      fun _ => (applySurfSettingsDefaults_idem t).symm⟩
  · rw [hm]
    exact ⟨iff_of_true (by simp) hyes, fun _ => rfl,
      fun hc => absurd hc (by simp)⟩

/-- Witness for claim C8: setting tunnel.mode to the unsupported value
bad reports an error and leaves the settings unchanged. -/
theorem setSurfConfigValue_spec_witness :
    (setSurfConfigValue defaultSurfSettings "tunnel.mode" "bad").2.isSome = true ∧
    (setSurfConfigValue defaultSurfSettings "tunnel.mode" "bad").1
      = defaultSurfSettings := by
  have h := setSurfConfigValue_spec defaultSurfSettings "tunnel.mode" "bad"
  have he : (setSurfConfigValue defaultSurfSettings "tunnel.mode" "bad").2.isSome = true :=
    h.1.mpr (by unfold setValueErrSpec; decide)
  exact ⟨he, h.2.1 he⟩

/-- Claim C9: for every profile whose record exists with a positive pid,
cmdHostStop removes the record file after the termination attempt and
reports success for the sanitized profile and recorded pid — whatever the
liveness oracle answers, so in particular also when the process already
exited externally and every liveness poll finds it dead. -/
theorem cmdHostStop_spec (env : hostStopEnv) (profile : String)
    (st : hostProcessState) (hrec : env.readRecord = some st)
    (hpid : 0 < st.PID) :
    (cmdHostStop env profile).recordRemoved = true ∧
    (cmdHostStop env profile).result
      = .success (sanitizeProfileName profile) st.PID := by
  have h1 : cmdHostStop env profile
      = (if st.PID ≤ 0 then
          { result := .fatalErr ("invalid pid for profile "
              ++ sanitizeProfileName profile)
            recordRemoved := false
            sentSigkill := false }
        else
          { result := .success (sanitizeProfileName profile) st.PID
            recordRemoved := true
            sentSigkill :=
              processAlive
                (env.alive (stopPollFinal
                  (fun t => processAlive (env.alive t) st.PID) 0 20))
                st.PID }) := by
    unfold cmdHostStop
    rw [hrec]
  rw [h1, if_neg (show ¬ st.PID ≤ 0 by omega)]
  exact ⟨rfl, rfl⟩

/-- Witness for claim C9: stopping the profile Work whose recorded
process (pid 4242) already exited — every liveness poll answers dead —
still removes the record, reports success, and never escalates to
SIGKILL. -/
theorem cmdHostStop_spec_witness :
    (cmdHostStop exampleStopEnv "Work").recordRemoved = true ∧
    (cmdHostStop exampleStopEnv "Work").result = .success "work" 4242 ∧
    (cmdHostStop exampleStopEnv "Work").sentSigkill = false := by
  have h := cmdHostStop_spec exampleStopEnv "Work" exampleStaleRecord rfl (by decide)
  refine ⟨h.1, ?_, by decide⟩
  rw [h.2]
  decide

end Surf
